import Mathlib

/-!
Verification of the `qiskit_nature.runtime.vqe_program` module: a shallow
embedding of the `VQEProgram` configuration-and-dispatch client and of the
module-level `_validate_optimizer_settings` function, together with theorems
settling the specified behaviours (optimizer-name validation, settings
validation, provider validation, operator normalization, input-bundle
assembly, callback adaptation, dispatch, and frame properties).
-/

namespace VQEProgramSpec

/-- The Python values that occur in this module: strings, integers, float
literals (kept opaque, no arithmetic is performed on them here), booleans,
`None`, lists of strings (such as the argument of `list.remove` in
`_validate_optimizer_settings`), and numpy arrays (opaque tags, since numpy
is external). -/
inductive PyVal where
  | str : String → PyVal
  | int : Int → PyVal
  | float : String → PyVal
  | bool : Bool → PyVal
  | pynone : PyVal
  | strlist : List String → PyVal
  | ndarray : String → PyVal
deriving DecidableEq, Repr

/-- The Python exceptions raised by this module.  `valueErrorSettings` is the
`ValueError` raised by `_validate_optimizer_settings`, whose f-string message
interpolates the optimizer name and the set of unsupported keys; it is kept
structured so that theorems can speak about exactly which keys it names. -/
inductive PyError where
  | valueError : String → PyError
  | valueErrorSettings : String → List String → PyError
  | notImplementedError : String → PyError
  | indexError : PyError
deriving DecidableEq, Repr

/-- Python `list.remove(x)`: removes the first element equal to `x`, raising
`ValueError` when no element equals `x`. -/
def list_remove (xs : List PyVal) (x : PyVal) : Except PyError (List PyVal) :=
  match xs with
  | [] => .error (.valueError "list.remove(x): x not in list")
  | y :: ys =>
    if y = x then .ok ys
    else (list_remove ys x).map (fun zs => y :: zs)

/-- The allow-list literal of `_validate_optimizer_settings` (all twelve
elements are strings). -/
def allowedSettingsList : List PyVal :=
  [.str "maxiter",
   .str "blocking",
   .str "allowed_increase",
   .str "trust_region",
   .str "learning_rate",
   .str "perturbation",
   .str "resamplings",
   .str "last_avg",
   .str "second_order",
   .str "hessian_delay",
   .str "regularization",
   .str "initial_hessian"]

/-- `_validate_optimizer_settings(name, settings)`.  The optimizer name is an
`Option String` because `VQEProgram.__init__` initialises the stored name to
`None` before running the setter.  Only the keys of the settings dict matter.
For `QN-SPSA` the code calls `allowed_settings.remove(['trust_region',
'second_order'])`, i.e. `remove` with a single list argument. -/
def validate_optimizer_settings (name : Option String)
    (settingsKeys : List String) : Except PyError Unit := do
  if name ≠ some "SPSA" ∧ name ≠ some "QN-SPSA" then
    throw (.notImplementedError "Only SPSA and QN-SPSA are currently supported.")
  let allowed ←
    if name = some "QN-SPSA" then
      list_remove allowedSettingsList (.strlist ["trust_region", "second_order"])
    else
      pure allowedSettingsList
  let unsupported := settingsKeys.filter (fun k => ¬ (PyVal.str k) ∈ allowed)
  if unsupported.length > 0 then
    throw (.valueErrorSettings (name.getD "") unsupported)
  pure ()

/-- An ansatz `QuantumCircuit`: opaque to this module, which only stores and
forwards it. -/
structure Circuit where
  tag : String
deriving DecidableEq, Repr

/-- A `Backend`: this module only calls its `name()` method when assembling
the runtime options. -/
structure Backend where
  name : String
deriving DecidableEq, Repr

/-- A `Provider` as seen by the provider setter: the setter evaluates
`hasattr(provider, 'runtime')`, so what matters is whether the `runtime`
attribute exists (`hasRuntime`) and whether evaluating it raises
`IBMQNotAuthorizedError` (`runtimeAccessRaisesAuthError`); `name` is the
string interpolated into the error message. -/
structure Provider where
  name : String
  hasRuntime : Bool
  runtimeAccessRaisesAuthError : Bool
deriving DecidableEq, Repr

/-- A caller-supplied callback: opaque token; the dispatcher only tests its
truthiness and wraps it. -/
structure Callback where
  tag : String
deriving DecidableEq, Repr

/-- A qubit operator argument of `compute_minimum_eigenvalue`.
`pauliSumOp tag` is an operator for which `isinstance(operator, PauliSumOp)`
holds.  `other typeName converted` is any other operator: `typeName` is
Python's `type(operator)` and `converted` records the outcome of the external
library calls `SparsePauliOp(operator.primitive)` followed by
`PauliSumOp(primitive, operator.coeff)` — `some (p, c)` (primitive tag and
coefficient tag) when they succeed, `none` when any of them raises. -/
inductive Operator where
  | pauliSumOp : String → Operator
  | other : String → Option (String × String) → Operator
deriving DecidableEq, Repr

/-- Python `type(operator)` as interpolated into the conversion error. -/
def Operator.typeName : Operator → String
  | .pauliSumOp _ => "PauliSumOp"
  | .other ty _ => ty

/-- The operator-normalization step of `compute_minimum_eigenvalue`: a
`PauliSumOp` is forwarded unchanged; any other operator is rebuilt as
`PauliSumOp(SparsePauliOp(operator.primitive), operator.coeff)`; if that
raises, a `ValueError` naming the operator type is raised instead. -/
def normalize_operator (op : Operator) : Except PyError Operator :=
  match op with
  | .pauliSumOp t => .ok (.pauliSumOp t)
  | .other ty conv =>
    match conv with
    | some pc =>
      .ok (.pauliSumOp ("PauliSumOp(SparsePauliOp(" ++ pc.1 ++ "), " ++ pc.2 ++ ")"))
    | none =>
      .error (.valueError ("Invalid type of the operator " ++ ty ++
        " must be PauliSumOp, or castable to one."))

/-- A remote job handle: its blocking `result()` call yields `resultVal`. -/
structure Job where
  resultVal : PyVal
deriving DecidableEq, Repr

/-- The `inputs` dict assembled by `compute_minimum_eigenvalue` (its keys are
the eight fixed literals of the source). -/
structure RuntimeInputs where
  operator : Operator
  aux_operators : Option (List (Option Operator))
  ansatz : Circuit
  optimizer : Option String
  optimizer_params : List (String × PyVal)
  initial_point : PyVal
  shots : Int
  readout_error_mitigation : Bool
deriving DecidableEq, Repr

/-- The `options` dict assembled by `compute_minimum_eigenvalue`. -/
structure RuntimeOptions where
  backend_name : String
deriving DecidableEq, Repr

/-- One invocation of `provider.runtime.run(...)`: the keyword arguments
passed.  `callback_set` records whether a wrapped callback (rather than
`None`) was passed. -/
structure RunCall where
  program_id : String
  inputs : RuntimeInputs
  options : RuntimeOptions
  callback_set : Bool
deriving DecidableEq, Repr

/-- The attribute state of a `VQEProgram` instance. -/
structure VQEProgram where
  program_name : String
  provider : Option Provider
  ansatz : Circuit
  optimizer_name : Option String
  optimizer_settings : List (String × PyVal)
  backend : Option Backend
  initial_point : Option PyVal
  shots : Int
  readout_error_mitigation : Bool
  callback : Option Callback
deriving DecidableEq, Repr

/-- The `provider` setter: evaluates `hasattr(provider, 'runtime')` and
discards the result; it raises `ValueError` only when that evaluation raises
`IBMQNotAuthorizedError`, and otherwise stores the provider. -/
def set_provider (self : VQEProgram) (p : Provider) : Except PyError VQEProgram :=
  if p.runtimeAccessRaisesAuthError then
    .error (.valueError ("The provider " ++ p.name ++
      " does not provide a runtime environment."))
  else
    .ok { self with provider := some p }

/-- The `optimizer_name` setter. -/
def set_optimizer_name (self : VQEProgram) (name : String) :
    Except PyError VQEProgram :=
  if name ≠ "SPSA" ∧ name ≠ "QN-SPSA" then
    .error (.notImplementedError "Only SPSA and QN-SPSA are currently supported.")
  else
    .ok { self with optimizer_name := some name }

/-- The plain setters (`ansatz`, `optimizer_settings`, `backend`,
`initial_point`, `shots`, `readout_error_mitigation`, `callback`): stores
without validation. -/
def set_ansatz (self : VQEProgram) (a : Circuit) : VQEProgram :=
  { self with ansatz := a }

def set_optimizer_settings (self : VQEProgram) (s : List (String × PyVal)) :
    VQEProgram :=
  { self with optimizer_settings := s }

def set_backend (self : VQEProgram) (b : Option Backend) : VQEProgram :=
  { self with backend := b }

def set_initial_point (self : VQEProgram) (ip : Option PyVal) : VQEProgram :=
  { self with initial_point := ip }

def set_shots (self : VQEProgram) (n : Int) : VQEProgram :=
  { self with shots := n }

def set_readout_error_mitigation (self : VQEProgram) (b : Bool) : VQEProgram :=
  { self with readout_error_mitigation := b }

def set_callback (self : VQEProgram) (c : Option Callback) : VQEProgram :=
  { self with callback := c }

/-- `VQEProgram.__init__`: defaults `optimizer_settings` to `{}`, sets the
program name to `'vqe'`, stores the plain settings, then routes `provider`
(when not `None`) and `optimizer_name` through their validating setters. -/
def VQEProgram.init (ansatz : Circuit) (optimizer_name : String)
    (optimizer_settings : Option (List (String × PyVal)))
    (initial_point : Option PyVal) (provider : Option Provider)
    (backend : Option Backend) (shots : Int)
    (readout_error_mitigation : Bool) (callback : Option Callback) :
    Except PyError VQEProgram := do
  let settings := optimizer_settings.getD []
  let base : VQEProgram :=
    { program_name := "vqe"
      provider := none
      ansatz := ansatz
      optimizer_name := none
      optimizer_settings := settings
      backend := backend
      initial_point := initial_point
      shots := shots
      readout_error_mitigation := readout_error_mitigation
      callback := callback }
  let withProvider ←
    match provider with
    | some p => set_provider base p
    | none => pure base
  set_optimizer_name withProvider optimizer_name

/-- Python list indexing `data[i]` for non-negative literal `i`: raises
`IndexError` when `i` is out of range. -/
def pyIndex (data : List PyVal) (i : Nat) : Except PyError PyVal :=
  match data.get? i with
  | some v => .ok v
  | none => .error .indexError

/-- The body of `wrapped_callback` built by `_wrap_vqe_callback`, applied to
the remote service's native arguments (a job id and a data sequence).  It
reads `data[0]` (iteration count), `data[1]` (parameters), `data[2]` (mean),
`data[4]` (accepted) and `data[5]` (metric), and invokes the caller's
callback with those values; the returned list is the argument tuple passed to
the caller's callback. -/
def wrapped_callback_args (_jobId : PyVal) (data : List PyVal) :
    Except PyError (List PyVal) := do
  let iteration_count ← pyIndex data 0
  let params ← pyIndex data 1
  let mean ← pyIndex data 2
  let accepted ← pyIndex data 4
  let metric ← pyIndex data 5
  pure [iteration_count, params, mean, accepted, metric]

/-- `_wrap_vqe_callback`: returns a wrapped callback when `self._callback`
is set (truthy), else `None`.  Only the presence is modelled here; the
wrapped behaviour itself is `wrapped_callback_args`. -/
def wrap_vqe_callback (self : VQEProgram) : Bool :=
  self.callback.isSome

/-- The outcome of one `compute_minimum_eigenvalue` invocation: the returned
result or raised error, the list of `provider.runtime.run` calls performed,
and the state of the configuration object afterwards. -/
structure ComputeOutcome where
  result : Except PyError PyVal
  calls : List RunCall
  post : VQEProgram
deriving Repr

/-- `VQEProgram.compute_minimum_eigenvalue`, parameterized by the behaviour
`rt` of the external `provider.runtime.run` service (which returns a job
handle).  Checks backend and provider, normalizes the operator into a local
(the attribute state is never assigned), validates the optimizer settings,
substitutes the sentinel `'random'` for an unset initial point, assembles
the inputs and options bundles, performs the single remote call under
`self.program_name`, and returns the job's blocking result. -/
def compute_minimum_eigenvalue (rt : RunCall → Job) (self : VQEProgram)
    (operator : Operator) (aux_operators : Option (List (Option Operator))) :
    ComputeOutcome :=
  if self.backend.isNone then
    { result := .error (.valueError "The backend has not been set.")
      calls := []
      post := self }
  else if self.provider.isNone then
    { result := .error (.valueError "The provider has not been set.")
      calls := []
      post := self }
  else
    match normalize_operator operator with
    | .error e => { result := .error e, calls := [], post := self }
    | .ok operator' =>
      match validate_optimizer_settings self.optimizer_name
          (self.optimizer_settings.map Prod.fst) with
      | .error e => { result := .error e, calls := [], post := self }
      | .ok _ =>
        let initial_point : PyVal :=
          match self.initial_point with
          | none => .str "random"
          | some v => v
        let inputs : RuntimeInputs :=
          { operator := operator'
            aux_operators := aux_operators
            ansatz := self.ansatz
            optimizer := self.optimizer_name
            optimizer_params := self.optimizer_settings
            initial_point := initial_point
            shots := self.shots
            readout_error_mitigation := self.readout_error_mitigation }
        let options : RuntimeOptions :=
          { backend_name := (self.backend.getD ⟨""⟩).name }
        let call : RunCall :=
          { program_id := self.program_name
            inputs := inputs
            options := options
            callback_set := wrap_vqe_callback self }
        { result := .ok (rt call).resultVal
          calls := [call]
          post := self }

/-- A sample configuration state used to evaluate the setters at concrete
inputs. -/
def sampleState : VQEProgram :=
  { program_name := "vqe"
    provider := none
    ansatz := ⟨"RealAmplitudes(3)"⟩
    optimizer_name := some "SPSA"
    optimizer_settings := [("maxiter", .int 100)]
    backend := some ⟨"aer_simulator"⟩
    initial_point := none
    shots := 1024
    readout_error_mitigation := true
    callback := none }

/-- A provider exposing the runtime service, as the fake runtime provider of
the test suite does. -/
def fakeProvider : Provider :=
  { name := "FakeRuntimeProvider", hasRuntime := true,
    runtimeAccessRaisesAuthError := false }

/-- A fully configured state: `sampleState` with the fake provider set. -/
def readyState : VQEProgram :=
  { sampleState with provider := some fakeProvider }

/-- A remote service behaving like `FakeVQERuntime`: every run returns a job
whose blocking result is `None`. -/
def fakeRt : RunCall → Job := fun _ => { resultVal := .pynone }

/-- The state produced by a successful default-style construction, used to
evaluate the constructor at a concrete input. -/
def initResultState : VQEProgram :=
  { program_name := "vqe"
    provider := none
    ansatz := ⟨"RealAmplitudes(3)"⟩
    optimizer_name := some "SPSA"
    optimizer_settings := []
    backend := none
    initial_point := none
    shots := 1024
    readout_error_mitigation := true
    callback := none }

/-- C1: for `QN-SPSA`, `_validate_optimizer_settings` raises on EVERY
settings dictionary, even an empty (all-allowed) one: the allow-list
shrinking step calls `allowed_settings.remove(['trust_region',
'second_order'])`, and since no element of the allow-list equals that
two-element list, `list.remove` itself raises `ValueError`.  For `SPSA` the
claimed behaviour holds: an all-allowed dictionary passes, and a dictionary
with a key outside the allow-list raises an error naming exactly the
offending keys. -/
theorem validate_qnspsa_always_raises :
    validate_optimizer_settings (some "QN-SPSA") [] =
      .error (.valueError "list.remove(x): x not in list") ∧
    validate_optimizer_settings (some "QN-SPSA") ["maxiter"] =
      .error (.valueError "list.remove(x): x not in list") ∧
    validate_optimizer_settings (some "SPSA") ["maxiter", "blocking"] = .ok () ∧
    validate_optimizer_settings (some "SPSA") ["maxiter", "tolerance"] =
      .error (.valueErrorSettings "SPSA" ["tolerance"]) := by
  refine ⟨?_, ?_, ?_, ?_⟩ <;> rfl

/-- C2: the callback adapter does not invoke the caller's callback with four
values.  On the data sequence the repository's own fake runtime supplies
(`[3, np.arange(10), 1.3]`), the adapter raises `IndexError` reading
`data[4]` before the caller's callback is ever invoked; and on a data
sequence long enough to carry the two further service-defined fields, the
adapter invokes the caller's callback with FIVE values — iteration count,
parameters, mean, `data[4]` (accepted) and `data[5]` (metric) — although the
constructor documents a four-parameter callback ending in the standard
deviation. -/
theorem wrapped_callback_not_four_args :
    wrapped_callback_args (.str "c919jdjlwinoir1a")
      [.int 3, .ndarray "np.arange(10)", .float "1.3"] = .error .indexError ∧
    wrapped_callback_args (.str "c919jdjlwinoir1a")
      [.int 3, .ndarray "np.arange(10)", .float "1.3", .float "0.2",
       .bool true, .float "0.9"] =
      .ok [.int 3, .ndarray "np.arange(10)", .float "1.3",
           .bool true, .float "0.9"] ∧
    ([PyVal.int 3, PyVal.ndarray "np.arange(10)", PyVal.float "1.3",
      PyVal.bool true, PyVal.float "0.9"].length = 5) := by
  exact ⟨rfl, rfl, rfl⟩

/-- C3: a provider that does not expose the runtime capability is NOT
rejected by the provider setter: the setter evaluates
`hasattr(provider, 'runtime')` and discards the boolean, so it raises only
when that evaluation itself raises `IBMQNotAuthorizedError`; a plain
provider without a `runtime` attribute (for which `hasattr` quietly returns
`False`) is accepted and stored. -/
theorem provider_without_runtime_accepted :
    set_provider sampleState
      { name := "NoRuntimeProvider", hasRuntime := false,
        runtimeAccessRaisesAuthError := false } =
      .ok { sampleState with
            provider := some { name := "NoRuntimeProvider",
                               hasRuntime := false,
                               runtimeAccessRaisesAuthError := false } } := by
  rfl

/-- C4: an operator that already is a `PauliSumOp` is forwarded unchanged
into the dispatched input bundle; any other operator is rebuilt from its
primitive and coefficient; and when that conversion raises, dispatch fails
with an error identifying the operator's type. -/
theorem operator_normalization_spec (rt : RunCall → Job) (self : VQEProgram)
    (t ty : String) (pc : String × String)
    (aux : Option (List (Option Operator))) (b : Backend) (p : Provider)
    (hb : self.backend = some b) (hp : self.provider = some p) :
    normalize_operator (.pauliSumOp t) = .ok (.pauliSumOp t) ∧
    normalize_operator (.other ty (some pc)) =
      .ok (.pauliSumOp ("PauliSumOp(SparsePauliOp(" ++ pc.1 ++ "), " ++
        pc.2 ++ ")")) ∧
    (validate_optimizer_settings self.optimizer_name
        (self.optimizer_settings.map Prod.fst) = .ok () →
      (compute_minimum_eigenvalue rt self (.pauliSumOp t) aux).calls.map
        (fun c => c.inputs.operator) = [.pauliSumOp t]) ∧
    (compute_minimum_eigenvalue rt self (.other ty none) aux).result =
      .error (.valueError ("Invalid type of the operator " ++ ty ++
        " must be PauliSumOp, or castable to one.")) := by
  refine ⟨rfl, rfl, ?_, ?_⟩
  · intro hv
    simp [compute_minimum_eigenvalue, hb, hp, hv, normalize_operator]
  · simp [compute_minimum_eigenvalue, hb, hp, normalize_operator]

/-- C5: dispatch with the backend unset raises the backend configuration
error, dispatch with the provider unset (the backend being set) raises the
provider configuration error, and whenever the provider is unset no remote
call is made. -/
theorem dispatch_preconditions (rt : RunCall → Job) (self : VQEProgram)
    (op : Operator) (aux : Option (List (Option Operator))) :
    (self.backend = none →
      (compute_minimum_eigenvalue rt self op aux).result =
        .error (.valueError "The backend has not been set.") ∧
      (compute_minimum_eigenvalue rt self op aux).calls = []) ∧
    (self.backend ≠ none → self.provider = none →
      (compute_minimum_eigenvalue rt self op aux).result =
        .error (.valueError "The provider has not been set.") ∧
      (compute_minimum_eigenvalue rt self op aux).calls = []) ∧
    (self.provider = none →
      (compute_minimum_eigenvalue rt self op aux).calls = []) := by
  refine ⟨?_, ?_, ?_⟩
  · intro hb
    simp [compute_minimum_eigenvalue, hb]
  · intro hb hp
    obtain ⟨b, hb2⟩ := Option.ne_none_iff_exists'.mp hb
    simp [compute_minimum_eigenvalue, hb2, hp]
  · intro hp
    cases hb : self.backend with
    | none => simp [compute_minimum_eigenvalue, hb]
    | some b => simp [compute_minimum_eigenvalue, hb, hp]

/-- C6: under a dispatch that reaches the input-assembly step, an unset
initial point is encoded as the sentinel string `'random'` in the dispatched
input bundle, and a set initial point is carried unchanged. -/
theorem initial_point_sentinel (rt : RunCall → Job) (self : VQEProgram)
    (op op' : Operator) (aux : Option (List (Option Operator)))
    (b : Backend) (p : Provider)
    (hb : self.backend = some b) (hp : self.provider = some p)
    (hop : normalize_operator op = .ok op')
    (hv : validate_optimizer_settings self.optimizer_name
      (self.optimizer_settings.map Prod.fst) = .ok ()) :
    (self.initial_point = none →
      (compute_minimum_eigenvalue rt self op aux).calls.map
        (fun c => c.inputs.initial_point) = [.str "random"]) ∧
    (∀ v, self.initial_point = some v →
      (compute_minimum_eigenvalue rt self op aux).calls.map
        (fun c => c.inputs.initial_point) = [v]) := by
  constructor
  · intro hip
    simp [compute_minimum_eigenvalue, hb, hp, hop, hv, hip]
  · intro v hip
    simp [compute_minimum_eigenvalue, hb, hp, hop, hv, hip]

/-- C7: assigning an optimizer name outside the two supported values, via
the setter or via the constructor argument, raises the unsupported-optimizer
error (and, the assignment failing, the previously stored name is kept —
in this embedding a failing setter yields no updated state); assigning
either supported name succeeds and stores it. -/
theorem optimizer_name_validation (self : VQEProgram) (name : String) :
    (name ≠ "SPSA" → name ≠ "QN-SPSA" →
      set_optimizer_name self name =
        .error (.notImplementedError
          "Only SPSA and QN-SPSA are currently supported.") ∧
      (∀ (a : Circuit) (os : Option (List (String × PyVal)))
         (ip : Option PyVal) (b : Option Backend) (sh : Int) (rem : Bool)
         (cb : Option Callback),
        VQEProgram.init a name os ip none b sh rem cb =
          .error (.notImplementedError
            "Only SPSA and QN-SPSA are currently supported."))) ∧
    (name = "SPSA" ∨ name = "QN-SPSA" →
      set_optimizer_name self name =
        .ok { self with optimizer_name := some name }) := by
  constructor
  · intro h1 h2
    refine ⟨by simp [set_optimizer_name, h1, h2], ?_⟩
    intro a os ip b sh rem cb
    simp [VQEProgram.init, set_optimizer_name, h1, h2]
  · intro h
    rcases h with h | h <;> simp [set_optimizer_name, h]

/-- C8: a dispatch that passes every validation performs exactly one remote
call, under the program identifier `'vqe'` stored at construction, with
options carrying the backend's name, and returns the blocking result of the
job handle produced by that single call, unmodified. -/
theorem dispatch_single_call (rt : RunCall → Job) (self : VQEProgram)
    (op op' : Operator) (aux : Option (List (Option Operator)))
    (b : Backend) (p : Provider)
    (hb : self.backend = some b) (hp : self.provider = some p)
    (hpn : self.program_name = "vqe")
    (hop : normalize_operator op = .ok op')
    (hv : validate_optimizer_settings self.optimizer_name
      (self.optimizer_settings.map Prod.fst) = .ok ()) :
    ∃ call : RunCall,
      (compute_minimum_eigenvalue rt self op aux).calls = [call] ∧
      call.program_id = "vqe" ∧
      call.options = { backend_name := b.name } ∧
      (compute_minimum_eigenvalue rt self op aux).result =
        .ok ((rt call).resultVal) := by
  refine
    ⟨{ program_id := self.program_name
       inputs :=
         { operator := op'
           aux_operators := aux
           ansatz := self.ansatz
           optimizer := self.optimizer_name
           optimizer_params := self.optimizer_settings
           initial_point :=
             match self.initial_point with
             | none => .str "random"
             | some v => v
           shots := self.shots
           readout_error_mitigation := self.readout_error_mitigation }
       options := { backend_name := (self.backend.getD ⟨""⟩).name }
       callback_set := wrap_vqe_callback self }, ?_, ?_, ?_, ?_⟩
  · simp [compute_minimum_eigenvalue, hb, hp, hop, hv]
  · simpa using hpn
  · simp [hb]
  · simp [compute_minimum_eigenvalue, hb, hp, hop, hv]

/-- Helper: a successful `set_provider` only changes the `provider` field. -/
theorem set_provider_ok_shape (s : VQEProgram) (p : Provider)
    (s2 : VQEProgram) (h : set_provider s p = .ok s2) :
    s2 = { s with provider := some p } := by
  unfold set_provider at h
  split at h
  · exact absurd h (by simp)
  · injection h with h2
    exact h2.symm

/-- Helper: a successful `set_optimizer_name` only changes the
`optimizer_name` field. -/
theorem set_optimizer_name_ok_shape (s : VQEProgram) (n : String)
    (s2 : VQEProgram) (h : set_optimizer_name s n = .ok s2) :
    s2 = { s with optimizer_name := some n } := by
  unfold set_optimizer_name at h
  split at h
  · exact absurd h (by simp)
  · injection h with h2
    exact h2.symm

/-- C9: the program name equals `'vqe'` after every successful construction
and is preserved by every operation of the configuration object; no
operation assigns it. -/
theorem program_name_invariant :
    (∀ (a : Circuit) (on_ : String) (os : Option (List (String × PyVal)))
       (ip : Option PyVal) (pr : Option Provider) (b : Option Backend)
       (sh : Int) (rem : Bool) (cb : Option Callback) (s : VQEProgram),
      VQEProgram.init a on_ os ip pr b sh rem cb = .ok s →
        s.program_name = "vqe") ∧
    (∀ (s : VQEProgram) (p : Provider) (s2 : VQEProgram),
      set_provider s p = .ok s2 → s2.program_name = s.program_name) ∧
    (∀ (s : VQEProgram) (n : String) (s2 : VQEProgram),
      set_optimizer_name s n = .ok s2 → s2.program_name = s.program_name) ∧
    (∀ (s : VQEProgram) (a : Circuit),
      (set_ansatz s a).program_name = s.program_name) ∧
    (∀ (s : VQEProgram) (os : List (String × PyVal)),
      (set_optimizer_settings s os).program_name = s.program_name) ∧
    (∀ (s : VQEProgram) (b : Option Backend),
      (set_backend s b).program_name = s.program_name) ∧
    (∀ (s : VQEProgram) (ip : Option PyVal),
      (set_initial_point s ip).program_name = s.program_name) ∧
    (∀ (s : VQEProgram) (n : Int),
      (set_shots s n).program_name = s.program_name) ∧
    (∀ (s : VQEProgram) (b : Bool),
      (set_readout_error_mitigation s b).program_name = s.program_name) ∧
    (∀ (s : VQEProgram) (c : Option Callback),
      (set_callback s c).program_name = s.program_name) ∧
    (∀ (rt : RunCall → Job) (s : VQEProgram) (op : Operator)
       (aux : Option (List (Option Operator))),
      ((compute_minimum_eigenvalue rt s op aux).post).program_name =
        s.program_name) := by
  refine ⟨?_, ?_, ?_, ?_, ?_, ?_, ?_, ?_, ?_, ?_, ?_⟩
  · intro a on_ os ip pr b sh rem cb s h
    cases pr with
    | none =>
      unfold VQEProgram.init at h
      simp only [bind, Except.bind, pure, Except.pure] at h
      rw [set_optimizer_name_ok_shape _ _ _ h]
    | some p =>
      unfold VQEProgram.init at h
      simp only [bind, Except.bind, pure, Except.pure] at h
      cases hsp : set_provider
          { program_name := "vqe"
            provider := none
            ansatz := a
            optimizer_name := none
            optimizer_settings := (os.getD [])
            backend := b
            initial_point := ip
            shots := sh
            readout_error_mitigation := rem
            callback := cb } p with
      | error e =>
        rw [hsp] at h
        exact absurd h (by simp)
      | ok s1 =>
        rw [hsp] at h
        rw [set_optimizer_name_ok_shape _ _ _ h]
        simp only
        rw [set_provider_ok_shape _ _ _ hsp]
  · intro s p s2 h
    rw [set_provider_ok_shape _ _ _ h]
  · intro s n s2 h
    rw [set_optimizer_name_ok_shape _ _ _ h]
  · intro s a
    rfl
  · intro s os
    rfl
  · intro s b
    rfl
  · intro s ip
    rfl
  · intro s n
    rfl
  · intro s b
    rfl
  · intro s c
    rfl
  · intro rt s op aux
    simp only [compute_minimum_eigenvalue]
    split
    · rfl
    · split
      · rfl
      · split
        · rfl
        · split
          · rfl
          · rfl

/-- C10: `compute_minimum_eigenvalue` never mutates the configuration
object: whatever the outcome (result or any of the raised errors), the
attribute state afterwards equals the state before, field by field. -/
theorem dispatch_preserves_state (rt : RunCall → Job) (self : VQEProgram)
    (op : Operator) (aux : Option (List (Option Operator))) :
    (compute_minimum_eigenvalue rt self op aux).post = self ∧
    ((compute_minimum_eigenvalue rt self op aux).post).provider =
      self.provider ∧
    ((compute_minimum_eigenvalue rt self op aux).post).ansatz = self.ansatz ∧
    ((compute_minimum_eigenvalue rt self op aux).post).optimizer_name =
      self.optimizer_name ∧
    ((compute_minimum_eigenvalue rt self op aux).post).optimizer_settings =
      self.optimizer_settings ∧
    ((compute_minimum_eigenvalue rt self op aux).post).backend =
      self.backend ∧
    ((compute_minimum_eigenvalue rt self op aux).post).initial_point =
      self.initial_point ∧
    ((compute_minimum_eigenvalue rt self op aux).post).shots = self.shots ∧
    ((compute_minimum_eigenvalue rt self op aux).post).readout_error_mitigation =
      self.readout_error_mitigation ∧
    ((compute_minimum_eigenvalue rt self op aux).post).callback =
      self.callback := by
  have hpost : (compute_minimum_eigenvalue rt self op aux).post = self := by
    simp only [compute_minimum_eigenvalue]
    split
    · rfl
    · split
      · rfl
      · split
        · rfl
        · split
          · rfl
          · rfl
  exact ⟨hpost, by rw [hpost], by rw [hpost], by rw [hpost], by rw [hpost],
    by rw [hpost], by rw [hpost], by rw [hpost], by rw [hpost], by rw [hpost]⟩

/-- Witness for C4: on the fully configured state, dispatch forwards a
`PauliSumOp` operator unchanged into the single dispatched bundle. -/
theorem operator_normalization_spec_witness :
    (compute_minimum_eigenvalue fakeRt readyState (.pauliSumOp "ZIZ")
      none).calls.map (fun c => c.inputs.operator) = [.pauliSumOp "ZIZ"] :=
  (operator_normalization_spec fakeRt readyState "ZIZ" "MatrixOp"
    ("prim", "coeff") none ⟨"aer_simulator"⟩ fakeProvider rfl rfl).2.2.1 rfl

/-- Witness for C5: with the backend unset dispatch raises the backend
error; with the backend set but the provider unset it raises the provider
error. -/
theorem dispatch_preconditions_witness :
    (compute_minimum_eigenvalue fakeRt (set_backend sampleState none)
      (.pauliSumOp "ZIZ") none).result =
      .error (.valueError "The backend has not been set.") ∧
    (compute_minimum_eigenvalue fakeRt sampleState
      (.pauliSumOp "ZIZ") none).result =
      .error (.valueError "The provider has not been set.") :=
  ⟨((dispatch_preconditions fakeRt (set_backend sampleState none)
      (.pauliSumOp "ZIZ") none).1 rfl).1,
   ((dispatch_preconditions fakeRt sampleState (.pauliSumOp "ZIZ") none).2.1
      (by simp [sampleState]) rfl).1⟩

/-- Witness for C6: on the fully configured state, whose initial point is
unset, the dispatched bundle carries the sentinel `'random'`. -/
theorem initial_point_sentinel_witness :
    (compute_minimum_eigenvalue fakeRt readyState (.pauliSumOp "ZIZ")
      none).calls.map (fun c => c.inputs.initial_point) = [.str "random"] :=
  (initial_point_sentinel fakeRt readyState (.pauliSumOp "ZIZ")
    (.pauliSumOp "ZIZ") none ⟨"aer_simulator"⟩ fakeProvider
    rfl rfl rfl rfl).1 rfl

/-- Witness for C7: assigning `COBYLA` raises the unsupported-optimizer
error and assigning `QN-SPSA` succeeds. -/
theorem optimizer_name_validation_witness :
    set_optimizer_name sampleState "COBYLA" =
      .error (.notImplementedError
        "Only SPSA and QN-SPSA are currently supported.") ∧
    set_optimizer_name sampleState "QN-SPSA" =
      .ok { sampleState with optimizer_name := some "QN-SPSA" } :=
  ⟨((optimizer_name_validation sampleState "COBYLA").1
      (by decide) (by decide)).1,
   (optimizer_name_validation sampleState "QN-SPSA").2 (Or.inr rfl)⟩

/-- Witness for C8: on the fully configured state the fake-runtime dispatch
makes one call under `'vqe'` with the backend's name and returns the fake
job's result. -/
theorem dispatch_single_call_witness :
    ∃ call : RunCall,
      (compute_minimum_eigenvalue fakeRt readyState (.pauliSumOp "ZIZ")
        none).calls = [call] ∧
      call.program_id = "vqe" ∧
      call.options = { backend_name := "aer_simulator" } ∧
      (compute_minimum_eigenvalue fakeRt readyState (.pauliSumOp "ZIZ")
        none).result = .ok ((fakeRt call).resultVal) :=
  dispatch_single_call fakeRt readyState (.pauliSumOp "ZIZ")
    (.pauliSumOp "ZIZ") none ⟨"aer_simulator"⟩ fakeProvider
    rfl rfl rfl rfl rfl

/-- Witness for C9: the concrete constructed state carries the program name
`'vqe'`, and a setter evaluated at a concrete input preserves it. -/
theorem program_name_invariant_witness :
    initResultState.program_name = "vqe" ∧
    (set_backend sampleState none).program_name = sampleState.program_name :=
  ⟨program_name_invariant.1 ⟨"RealAmplitudes(3)"⟩ "SPSA" none none none none
      1024 true none initResultState rfl,
   program_name_invariant.2.2.2.2.2.1 sampleState none⟩

end VQEProgramSpec
